import Mathlib

/-!
Verification of the customer-service workflow agent (src/phase-2/customer_service_agent.py)
and the minimal tool-calling loop (src/phrase-1/simple_agent.py).

The Python code is shallowly embedded: each node of the LangGraph workflow becomes a pure
Lean function from the workflow state to a partial state update (a StepDelta), the
interrupt/resume mechanism becomes an explicit Option-typed resume argument, and the
nondeterministic uuid suffix used by the simulated refund tool becomes an explicit
argument threaded through the run functions.
-/

namespace CustomerService

/-- Message roles as they appear in state: langchain converts dicts with role user into
messages of type human, and assistant dicts into messages of type ai. -/
inductive Role where
  | human
  | ai
deriving DecidableEq, Repr

/-- A message in the conversation log: a role (langchain message type) plus content. -/
structure Msg where
  role : Role
  content : String
deriving DecidableEq, Repr

/-- The Literal intent values of CustomerServiceState.intent. -/
inductive Intent where
  | refund
  | consult
  | unknown
deriving DecidableEq, Repr

/-- The Literal refund decision values of CustomerServiceState.refund_decision. -/
inductive Decision where
  | pending
  | approved
  | declined
deriving DecidableEq, Repr

/-- CustomerServiceState from the source, with its pydantic defaults. The user_info dict
is modelled as an association list in insertion order (Python dicts preserve insertion
order). -/
structure CustomerServiceState where
  messages : List Msg := []
  user_info : List (String × String) := []
  intent : Intent := Intent.unknown
  needs_human : Bool := false
  refund_decision : Decision := Decision.pending
  refund_transaction_id : Option String := none
deriving DecidableEq, Repr

/-- Python dict update d[k] = v: overwrite in place if the key exists, else append. -/
def dictSet (d : List (String × String)) (k v : String) : List (String × String) :=
  if d.any (fun p => p.1 = k) then
    d.map (fun p => if p.1 = k then (k, v) else p)
  else
    d ++ [(k, v)]

/-- Python dict merge as in the source: the update entries are written over the base,
key-wise, preserving insertion order. -/
def dictMerge (base : List (String × String)) : List (String × String) → List (String × String)
  | [] => base
  | (k, v) :: rest => dictMerge (dictSet base k v) rest

/-- Python d.get(k): the value stored at the first matching key, if any. -/
def dictGet (d : List (String × String)) (k : String) : Option String :=
  (d.find? (fun p => p.1 = k)).map (fun p => p.2)

/-- Python truthiness of an optional string field: None and the empty string are falsy. -/
def truthyOptStr : Option String → Bool
  | none => false
  | some s => !s.isEmpty

/-- needle occurs as a prefix of hay (character lists). -/
def startsWithL : List Char → List Char → Bool
  | [], _ => true
  | _ :: _, [] => false
  | a :: as, b :: bs => a = b && startsWithL as bs

/-- Python substring containment (needle in hay) on character lists. -/
def containsL (needle : List Char) : List Char → Bool
  | [] => needle.isEmpty
  | c :: rest => startsWithL needle (c :: rest) || containsL needle rest

/-- Python substring containment on strings. -/
def containsSub (needle hay : String) : Bool :=
  containsL needle.toList hay.toList

/-- Python str.lower, applied character-wise. -/
def lowerStr (s : String) : String :=
  String.mk (s.toList.map Char.toLower)

/-- The _ANGRY_WORDS tuple from the source. -/
def angryWords : List String :=
  ["生气", "愤怒", "垃圾", "投诉", "差评", "骗子", "要告你", "气死了"]

/-- The source helper checking for a keyword match at one position of the regex
(?:订单|order)[0-9 excluded]* capture of 3 or more digits, with IGNORECASE: if the
keyword 订单 or order (case-insensitively) starts here, return the remaining text. -/
def keywordRemainder (cs : List Char) : Option (List Char) :=
  if startsWithL ("订单".toList) cs then some (cs.drop 2)
  else if (cs.take 5).map Char.toLower = "order".toList then some (cs.drop 5)
  else none

/-- re.search of _ORDER_ID_RE: scan start positions left to right; where the keyword
matches, greedily skip non-digits, then require a maximal run of at least three digits,
which is the captured group; otherwise move to the next start position. -/
def extractOrderId : List Char → Option String
  | [] => none
  | c :: rest =>
    match keywordRemainder (c :: rest) with
    | some after =>
      let afterSkip := after.dropWhile (fun ch => !ch.isDigit)
      let digits := afterSkip.takeWhile (fun ch => ch.isDigit)
      if 3 ≤ digits.length then some (String.mk digits)
      else extractOrderId rest
    | none => extractOrderId rest

/-- The source _extract_user_info: a dict holding order_id when the regex matches. -/
def extract_user_info (text : String) : List (String × String) :=
  match extractOrderId text.toList with
  | some oid => [("order_id", oid)]
  | none => []

/-- The source _is_angry: any angry word is a substring of the text. -/
def is_angry (text : String) : Bool :=
  angryWords.any (fun w => containsSub w text)

/-- The last message of type human/user in state.messages, read in reverse, with empty
default, as in the prelude of classify_intent. -/
def lastUserText (ms : List Msg) : String :=
  match ms.reverse.find? (fun m => m.role = Role.human) with
  | some m => m.content
  | none => ""

/-- Python non-emptiness of text.strip(): some character is not whitespace. -/
def stripTruthy (text : String) : Bool :=
  text.toList.any (fun c => !c.isWhitespace)

/-- A partial update to CustomerServiceState. messages entries are appended by the
add_messages reducer; every other field overwrites when present. The transaction id
update is doubly optional so that an explicit None write is representable. -/
structure StepDelta where
  messages : List Msg := []
  user_info : Option (List (String × String)) := none
  intent : Option Intent := none
  needs_human : Option Bool := none
  refund_decision : Option Decision := none
  refund_transaction_id : Option (Option String) := none
deriving DecidableEq, Repr

/-- Merging a StepDelta into the state: messages append, the other channels overwrite
when the delta carries them. -/
def applyDelta (s : CustomerServiceState) (d : StepDelta) : CustomerServiceState :=
  { messages := s.messages ++ d.messages
    user_info := d.user_info.getD s.user_info
    intent := d.intent.getD s.intent
    needs_human := d.needs_human.getD s.needs_human
    refund_decision := d.refund_decision.getD s.refund_decision
    refund_transaction_id := d.refund_transaction_id.getD s.refund_transaction_id }

/-- Node A of the source, classify_intent: rule-based intent recognition plus info
extraction. Returns the delta dict of the source verbatim. -/
def classify_intent (s : CustomerServiceState) : StepDelta :=
  let last_user_text := lastUserText s.messages
  let info_update := extract_user_info last_user_text
  let merged_info := dictMerge s.user_info info_update
  let text_l := lowerStr last_user_text
  let intent : Intent :=
    if containsSub "退款" last_user_text || containsSub "refund" text_l then Intent.refund
    else if stripTruthy last_user_text then Intent.consult
    else Intent.unknown
  let needs_human := is_angry last_user_text
  let refund_decision :=
    if intent = Intent.refund ∧ s.refund_transaction_id = none then Decision.pending
    else s.refund_decision
  { user_info := some merged_info
    intent := some intent
    needs_human := some needs_human
    refund_decision := some refund_decision }

/-- Node C of the source, human_handoff: a simulated handoff message. -/
def human_handoff (_s : CustomerServiceState) : StepDelta :=
  { messages := [⟨Role.ai, "我理解你的情绪。我先为你转人工客服处理（模拟）。你可以补充订单号/问题细节。"⟩] }

/-- The interrupt payload built by confirm_refund: a type tag, the question shown to the
operator, and a context dict holding the order id (possibly None). -/
structure InterruptPayload where
  type : String
  question : String
  context_order_id : Option String
deriving DecidableEq, Repr

/-- The value supplied to Command(resume=...): either a raw Python value whose truthiness
is taken by bool(decision), or a dict whose approved entry truthiness is taken by
bool(decision.get(approved key)) with a missing key falsy. -/
inductive ResumeValue where
  | pyBool (b : Bool)
  | pyDict (approvedTruthy : Bool)
deriving DecidableEq, Repr

/-- The approved flag confirm_refund computes from the resume value. -/
def ResumeValue.approvedFlag : ResumeValue → Bool
  | .pyBool b => b
  | .pyDict b => b

/-- What a step execution produces: a delta, or a suspension carrying the interrupt
payload (the source raises through interrupt, which LangGraph turns into a suspension). -/
inductive StepResult where
  | delta (d : StepDelta)
  | suspend (p : InterruptPayload)
deriving DecidableEq, Repr

/-- The confirmation node of the source, confirm_refund. On first execution (resume none)
the interrupt call suspends; on resume (resume some v) the node re-runs from the start
and the interrupt call returns v. -/
def confirm_refund (s : CustomerServiceState) (resume : Option ResumeValue) : StepResult :=
  if s.refund_decision ≠ Decision.pending then StepResult.delta {}
  else
    let order_id := dictGet s.user_info "order_id"
    let prompt : InterruptPayload :=
      { type := "confirm_refund"
        question := "是否确认要发起退款？请输入 yes/no。"
        context_order_id := order_id }
    match resume with
    | none => StepResult.suspend prompt
    | some decision =>
      if !decision.approvedFlag then
        StepResult.delta
          { refund_decision := some Decision.declined
            messages := [⟨Role.ai, "好的，我不会发起退款。如需继续，请告诉我你的诉求。"⟩] }
      else
        StepResult.delta
          { refund_decision := some Decision.approved
            messages := [⟨Role.ai, "收到，我将为你发起退款（模拟）。"⟩] }

/-- Python <value> or unknown-string: truthiness fallback used in the refund tool. -/
def pyOrUnknown : Option String → String
  | none => "unknown"
  | some t => if t.isEmpty then "unknown" else t

/-- The source _issue_refund_tool: builds the simulated transaction id. The random
uuid4 hex suffix is passed in explicitly. -/
def issue_refund_tool (order_id : Option String) (uuidHex8 : String) : String :=
  "refund_" ++ pyOrUnknown order_id ++ "_" ++ uuidHex8

/-- Node B of the source, process_refund, with the uuid suffix passed explicitly. The
second component counts the calls made to the external refund tool during this
execution. -/
def process_refund (s : CustomerServiceState) (uuidHex8 : String) : StepDelta × Nat :=
  if s.refund_decision ≠ Decision.approved then ({}, 0)
  else if truthyOptStr s.refund_transaction_id then
    ({ messages := [⟨Role.ai,
        "退款已处理过（模拟）。退款单号：" ++ (s.refund_transaction_id.getD "")⟩] }, 0)
  else
    let order_id := dictGet s.user_info "order_id"
    let tx_id := issue_refund_tool order_id uuidHex8
    ({ refund_transaction_id := some (some tx_id)
       messages := [⟨Role.ai, "已发起退款（模拟）。退款单号：" ++ tx_id⟩] }, 1)

/-- The refund_status node of the source: reports an existing transaction id. -/
def refund_status (s : CustomerServiceState) : StepDelta :=
  if !truthyOptStr s.refund_transaction_id then {}
  else
    { messages := [⟨Role.ai,
        "你的退款已在处理中（模拟）。退款单号：" ++ (s.refund_transaction_id.getD "")⟩] }

/-- The answer_consult node of the source: the placeholder consult reply. -/
def answer_consult (_s : CustomerServiceState) : StepDelta :=
  { messages := [⟨Role.ai,
      "我可以帮你处理咨询类问题（示例）。如果你要退款，请直接说“我要退款”，并附上订单号。"⟩] }

/-- The source _route_after_classify, returning the route name string. -/
def route_after_classify (s : CustomerServiceState) : String :=
  if s.needs_human then "human_handoff"
  else if s.intent = Intent.refund then
    if truthyOptStr s.refund_transaction_id then "refund_status"
    else "confirm_refund"
  else "answer_consult"

/-- The source _route_after_confirm, returning the route name string. -/
def route_after_confirm (s : CustomerServiceState) : String :=
  if s.refund_decision = Decision.approved then "process_refund" else "end"

/-- The targets of the conditional-edges map attached to classify_intent in build_app. -/
inductive ClassifyTarget where
  | toHandoff
  | toConfirm
  | toStatus
  | toConsult
deriving DecidableEq, Repr

/-- The conditional-edges dict of classify_intent in build_app: an unmapped route name
yields none, which at runtime would be an unmapped-route error. -/
def classifyEdges (r : String) : Option ClassifyTarget :=
  if r = "human_handoff" then some ClassifyTarget.toHandoff
  else if r = "confirm_refund" then some ClassifyTarget.toConfirm
  else if r = "refund_status" then some ClassifyTarget.toStatus
  else if r = "answer_consult" then some ClassifyTarget.toConsult
  else none

/-- The targets of the conditional-edges map attached to confirm_refund in build_app. -/
inductive ConfirmTarget where
  | toProcess
  | toEnd
deriving DecidableEq, Repr

/-- The conditional-edges dict of confirm_refund in build_app. -/
def confirmEdges (r : String) : Option ConfirmTarget :=
  if r = "process_refund" then some ConfirmTarget.toProcess
  else if r = "end" then some ConfirmTarget.toEnd
  else none

/-- The observable outcome of driving the compiled graph on one input or resume:
termination with a final state, suspension at the interrupt with the checkpoint state
and payload, or an unmapped-route error. The Nat counts external refund-tool calls. -/
inductive Outcome where
  | terminated (s : CustomerServiceState) (toolCalls : Nat)
  | suspended (s : CustomerServiceState) (payload : InterruptPayload) (toolCalls : Nat)
  | routeError (route : String)
deriving DecidableEq, Repr

/-- Executing the graph from the confirm_refund node on state s. On suspension the
checkpoint keeps s itself: LangGraph discards the writes of an interrupted node, and the
node re-runs from the start on resume. -/
def runConfirm (s : CustomerServiceState) (resume : Option ResumeValue)
    (uuidHex8 : String) : Outcome :=
  match confirm_refund s resume with
  | StepResult.suspend p => Outcome.suspended s p 0
  | StepResult.delta d =>
    let s1 := applyDelta s d
    match confirmEdges (route_after_confirm s1) with
    | none => Outcome.routeError (route_after_confirm s1)
    | some ConfirmTarget.toEnd => Outcome.terminated s1 0
    | some ConfirmTarget.toProcess =>
      let pr := process_refund s1 uuidHex8
      Outcome.terminated (applyDelta s1 pr.1) pr.2

/-- Executing the graph from the entry point classify_intent on state s: classify, route,
run the chosen node, and follow its edge to END (confirm_refund may suspend first). -/
def runFromClassify (s : CustomerServiceState) (uuidHex8 : String) : Outcome :=
  let s1 := applyDelta s (classify_intent s)
  match classifyEdges (route_after_classify s1) with
  | none => Outcome.routeError (route_after_classify s1)
  | some ClassifyTarget.toHandoff => Outcome.terminated (applyDelta s1 (human_handoff s1)) 0
  | some ClassifyTarget.toConfirm => runConfirm s1 none uuidHex8
  | some ClassifyTarget.toStatus => Outcome.terminated (applyDelta s1 (refund_status s1)) 0
  | some ClassifyTarget.toConsult => Outcome.terminated (applyDelta s1 (answer_consult s1)) 0

/-- The state after merging a new user input event into s, as app.invoke does through the
add_messages reducer. -/
def inputState (s : CustomerServiceState) (userText : String) : CustomerServiceState :=
  { s with messages := s.messages ++ [⟨Role.human, userText⟩] }

/-- app.invoke on a user message: merge the input event, then run from the entry point. -/
def invokeInput (s : CustomerServiceState) (userText : String) (uuidHex8 : String) : Outcome :=
  runFromClassify (inputState s userText) uuidHex8

/-- app.invoke(Command(resume=v)) on a checkpoint suspended at confirm_refund: re-run the
suspended node from the start with the interrupt call returning v. -/
def resumeRun (checkpoint : CustomerServiceState) (v : ResumeValue)
    (uuidHex8 : String) : Outcome :=
  runConfirm checkpoint (some v) uuidHex8

/-- The Scenario 1 input text of the spec. -/
def scenario1Text : String := "I want a refund, order 12345"

/-- The outcome of Scenario 1: a fresh thread receiving the Scenario 1 input. The uuid
argument is irrelevant because the run suspends before any tool call. -/
def scenario1Outcome : Outcome := invokeInput {} scenario1Text "0a1b2c3d"

/-- The checkpoint state captured when Scenario 1 suspends. -/
def scenario1Checkpoint : CustomerServiceState :=
  match scenario1Outcome with
  | Outcome.suspended s _ _ => s
  | _ => {}

end CustomerService

namespace SimpleAgent

/-- One tool call requested by the model: its correlation id, function name, and the two
numeric arguments a and b parsed from the JSON arguments. -/
structure ToolCall where
  id : String
  name : String
  a : Int
  b : Int
deriving DecidableEq, Repr

/-- The multiply tool of the source. -/
def multiply (a b : Int) : Int := a * b

/-- Membership of a function name in the available_functions map of the source. -/
def availableFunction (fname : String) : Bool := fname = "multiply"

/-- An entry of the messages list of run_agent: role, content, and the optional fields
used by assistant tool-call messages and tool result messages. -/
structure SMsg where
  role : String
  content : String := ""
  tool_call_id : Option String := none
  fname : Option String := none
  tool_calls : List ToolCall := []
deriving DecidableEq, Repr

/-- A chat-completion response message: its text content and its (possibly empty) list
of tool calls. An empty list models a falsy tool_calls attribute. -/
structure ApiMessage where
  content : String := ""
  tool_calls : List ToolCall := []
deriving DecidableEq, Repr

/-- The response message as appended to the log by messages.append(response_message). -/
def ofApiMessage (rm : ApiMessage) : SMsg :=
  { role := "assistant", content := rm.content, tool_calls := rm.tool_calls }

/-- The tool result message the loop builds for one executed call: role tool, the
correlation id of the call, the function name, and the stringified function result. -/
def toolResultMsg (tc : ToolCall) : SMsg :=
  { role := "tool"
    tool_call_id := some tc.id
    fname := some tc.name
    content := toString (multiply tc.a tc.b) }

/-- The tool result messages appended by the for-loop over tool_calls: one per call whose
function name is in available_functions; unknown names append nothing. -/
def toolResultMsgs : List ToolCall → List SMsg
  | [] => []
  | tc :: rest =>
    if availableFunction tc.name then toolResultMsg tc :: toolResultMsgs rest
    else toolResultMsgs rest

/-- One tool round of the loop body: append the assistant message holding the tool calls,
then every executed tool result, in order. -/
def stepRound (msgs : List SMsg) (rm : ApiMessage) : List SMsg :=
  msgs ++ [ofApiMessage rm] ++ toolResultMsgs rm.tool_calls

/-- The initial message log of run_agent. -/
def initMessages (userQuery : String) : List SMsg :=
  [{ role := "system", content := "你是一个有用的助手。如果遇到计算问题，必须调用工具。" },
   { role := "user", content := userQuery }]

/-- The while-loop of run_agent, driven by the trace of completion responses: the k-th
list entry is what the k-th completion call returns when given the log built so far. A
response without tool calls breaks the loop; a response with tool calls appends the
assistant message and the tool results and continues. -/
def runLoop (msgs : List SMsg) : List ApiMessage → List SMsg
  | [] => msgs
  | rm :: rest =>
    if rm.tool_calls.isEmpty then msgs
    else runLoop (stepRound msgs rm) rest

end SimpleAgent

namespace CustomerService

/-- C1: on a new thread whose single user message is the Scenario 1 text, the workflow
classifies the intent as refund, stores order_id 12345 in the user-info map, and
suspends (rather than terminating) at the confirmation step with an interrupt payload
of type confirm_refund whose context carries order_id 12345. -/
theorem c1_new_refund_thread_suspends_with_payload :
    ∃ s1 p,
      scenario1Outcome = Outcome.suspended s1 p 0 ∧
      s1.intent = Intent.refund ∧
      dictGet s1.user_info "order_id" = some "12345" ∧
      p.type = "confirm_refund" ∧
      p.context_order_id = some "12345" :=
  ⟨_, _, rfl, rfl, rfl, rfl, rfl⟩

/-- C4: resuming the Scenario 1 checkpoint with resume value True makes the confirmation
step emit an approved decision, routes to process_refund, which issues and stores a
refund transaction id (exactly one tool call), and the workflow terminates. -/
theorem c4_resume_true_approves_and_issues_refund (u : String) :
    ∃ d sf,
      confirm_refund scenario1Checkpoint (some (ResumeValue.pyBool true)) =
        StepResult.delta d ∧
      d.refund_decision = some Decision.approved ∧
      route_after_confirm (applyDelta scenario1Checkpoint d) = "process_refund" ∧
      resumeRun scenario1Checkpoint (ResumeValue.pyBool true) u = Outcome.terminated sf 1 ∧
      sf.refund_decision = Decision.approved ∧
      sf.refund_transaction_id = some (issue_refund_tool (some "12345") u) :=
  ⟨_, _, rfl, rfl, rfl, rfl, rfl, rfl⟩

/-- C5: resuming the Scenario 1 checkpoint with resume value False makes the confirmation
step emit a declined decision, the router selects end rather than process_refund, the
workflow terminates with zero external refund-tool calls, and the transaction id stays
unset. -/
theorem c5_resume_false_declines_without_tool_call (u : String) :
    ∃ d sf,
      confirm_refund scenario1Checkpoint (some (ResumeValue.pyBool false)) =
        StepResult.delta d ∧
      d.refund_decision = some Decision.declined ∧
      route_after_confirm (applyDelta scenario1Checkpoint d) = "end" ∧
      resumeRun scenario1Checkpoint (ResumeValue.pyBool false) u = Outcome.terminated sf 0 ∧
      sf.refund_decision = Decision.declined ∧
      sf.refund_transaction_id = none :=
  ⟨_, _, rfl, rfl, rfl, rfl, rfl, rfl⟩

/-- C6: the routers are total, even over all states (which subsumes the reachable ones):
route_after_classify always returns one of its four mapped names, route_after_confirm
one of its two, and both conditional-edge lookups succeed, so the unmapped-route error
branch is unreachable. -/
theorem c6_routers_total_and_always_mapped (s : CustomerServiceState) :
    (route_after_classify s = "human_handoff" ∨ route_after_classify s = "confirm_refund" ∨
     route_after_classify s = "refund_status" ∨ route_after_classify s = "answer_consult") ∧
    (classifyEdges (route_after_classify s)).isSome = true ∧
    (route_after_confirm s = "process_refund" ∨ route_after_confirm s = "end") ∧
    (confirmEdges (route_after_confirm s)).isSome = true := by
  unfold route_after_classify route_after_confirm classifyEdges confirmEdges
  split_ifs <;> simp_all

/-- A nonempty string is not isEmpty. -/
theorem isEmpty_false_of_ne (t : String) (h : t ≠ "") : t.isEmpty = false := by
  rcases hb : t.isEmpty with _ | _
  · rfl
  · exact absurd ((String.isEmpty_iff t).mp hb) h

/-- Python truthiness of a present, nonempty transaction id. -/
theorem truthyOptStr_some (t : String) (h : t ≠ "") : truthyOptStr (some t) = true := by
  simp [truthyOptStr, isEmpty_false_of_ne t h]

/-- Every delta the confirmation step can produce omits the transaction id channel. -/
theorem confirm_refund_delta_tx_none (s : CustomerServiceState) (r : Option ResumeValue)
    (d : StepDelta) (h : confirm_refund s r = StepResult.delta d) :
    d.refund_transaction_id = none := by
  unfold confirm_refund at h
  split at h
  · cases h; rfl
  · cases r with
    | none => simp at h
    | some v =>
      rcases hv : v.approvedFlag with _ | _ <;> simp [hv] at h <;> simp [← h]

/-- Transaction ids built by the refund tool are never the empty string. -/
theorem issue_refund_tool_ne_empty (oid : Option String) (u : String) :
    issue_refund_tool oid u ≠ "" := by
  intro h
  have hlen := congrArg String.length h
  rw [issue_refund_tool, String.length_append, String.length_append,
    String.length_append] at hlen
  have h7 : ("refund_" : String).length = 7 := rfl
  have h0 : ("" : String).length = 0 := rfl
  omega

/-- A delta neither clears nor changes the transaction id of state s: it either omits
the channel or carries the present value unchanged. -/
def txPreserved (s : CustomerServiceState) (d : StepDelta) : Prop :=
  d.refund_transaction_id = none ∨ d.refund_transaction_id = some s.refund_transaction_id

/-- C3: on any state holding a (nonempty, as every issued id is) transaction id, no node
of the workflow clears or overwrites it: each delta omits the channel or repeats the
present value; and, justifying the nonemptiness hypothesis on reachable states, every
transaction id process_refund ever writes is nonempty. -/
theorem c3_transaction_id_never_cleared_or_reissued
    (s : CustomerServiceState) (t : String)
    (hs : s.refund_transaction_id = some t) (ht : t ≠ "") :
    txPreserved s (classify_intent s) ∧
    txPreserved s (human_handoff s) ∧
    (∀ r d, confirm_refund s r = StepResult.delta d → txPreserved s d) ∧
    (∀ u, txPreserved s (process_refund s u).1) ∧
    txPreserved s (refund_status s) ∧
    txPreserved s (answer_consult s) ∧
    (∀ s2 u t2, ((process_refund s2 u).1).refund_transaction_id = some (some t2) →
      t2 ≠ "") := by
  refine ⟨Or.inl rfl, Or.inl rfl, ?_, ?_, Or.inl ?_, Or.inl rfl, ?_⟩
  · intro r d h
    exact Or.inl (confirm_refund_delta_tx_none s r d h)
  · intro u
    unfold process_refund
    split
    · exact Or.inl rfl
    · rw [hs, truthyOptStr_some t ht]
      exact Or.inl rfl
  · unfold refund_status
    rw [hs, truthyOptStr_some t ht]
    rfl
  · intro s2 u t2 h
    unfold process_refund at h
    split at h
    · cases h
    · split at h
      · cases h
      · simp only [StepDelta.refund_transaction_id, Option.some.injEq] at h
        rw [← h]
        exact issue_refund_tool_ne_empty _ u

/-- Concrete instantiation of the C3 invariant at a state holding a real issued id. -/
theorem c3_transaction_id_never_cleared_or_reissued_witness :
    ({ refund_decision := Decision.approved,
       refund_transaction_id := some "refund_12345_0a1b2c3d" } :
        CustomerServiceState).refund_transaction_id = some "refund_12345_0a1b2c3d" ∧
    ("refund_12345_0a1b2c3d" : String) ≠ "" ∧
    txPreserved { refund_decision := Decision.approved,
                  refund_transaction_id := some "refund_12345_0a1b2c3d" }
      (classify_intent { refund_decision := Decision.approved,
                         refund_transaction_id := some "refund_12345_0a1b2c3d" }) :=
  ⟨rfl, by decide,
    (c3_transaction_id_never_cleared_or_reissued
      { refund_decision := Decision.approved,
        refund_transaction_id := some "refund_12345_0a1b2c3d" }
      "refund_12345_0a1b2c3d" rfl (by decide)).1⟩

/-- A concrete post-refund state: approved decision and an already issued id. -/
def c2StateA : CustomerServiceState :=
  { user_info := [("order_id", "12345")]
    intent := Intent.refund
    refund_decision := Decision.approved
    refund_transaction_id := some "refund_12345_0a1b2c3d" }

/-- The state after invoking process_refund once on c2StateA. -/
def c2StateB : CustomerServiceState :=
  applyDelta c2StateA (process_refund c2StateA "0a1b2c3d").1

/-- The state after invoking process_refund a second time, on c2StateB. -/
def c2StateC : CustomerServiceState :=
  applyDelta c2StateB (process_refund c2StateB "0a1b2c3d").1

/-- C2 as stated fails: on a state with the transaction id already set, the two
invocations of process_refund make zero refund-tool calls, but the state after the
second invocation is not identical to the state after the first, because each
invocation appends the already-processed notification to the message log. -/
theorem c2_counterexample_second_state_differs :
    c2StateA.refund_transaction_id = some "refund_12345_0a1b2c3d" ∧
    (process_refund c2StateA "0a1b2c3d").2 = 0 ∧
    (process_refund c2StateB "0a1b2c3d").2 = 0 ∧
    c2StateC ≠ c2StateB :=
  ⟨rfl, rfl, rfl, by decide⟩

/-- C2 amended: on every state whose transaction id is set (to a nonempty id, as every
issued id is), invoking process_refund twice makes zero refund-tool calls, both
invocations produce the same delta, that delta omits the transaction id channel, and
the only difference of the second resulting state is one more appended copy of the same
notification messages. -/
theorem c2_amended_idempotent_up_to_duplicate_log_entry
    (s : CustomerServiceState) (t u1 u2 : String)
    (hs : s.refund_transaction_id = some t) (ht : t ≠ "") :
    ∃ d : StepDelta,
      process_refund s u1 = (d, 0) ∧
      process_refund (applyDelta s d) u2 = (d, 0) ∧
      d.refund_transaction_id = none ∧
      applyDelta (applyDelta s d) d =
        { applyDelta s d with messages := (applyDelta s d).messages ++ d.messages } := by
  by_cases hd : s.refund_decision = Decision.approved
  · refine ⟨{ messages := [⟨Role.ai, "退款已处理过（模拟）。退款单号：" ++ t⟩] },
      ?_, ?_, rfl, rfl⟩
    · simp [process_refund, hd, hs, truthyOptStr_some t ht]
    · simp [process_refund, applyDelta, hd, hs, truthyOptStr_some t ht]
  · refine ⟨{}, ?_, ?_, rfl, rfl⟩
    · simp [process_refund, hd]
    · simp [process_refund, applyDelta, hd]

/-- Concrete instantiation of the amended C2 statement on c2StateA. -/
theorem c2_amended_witness :
    c2StateA.refund_transaction_id = some "refund_12345_0a1b2c3d" ∧
    ("refund_12345_0a1b2c3d" : String) ≠ "" ∧
    (∃ d : StepDelta,
      process_refund c2StateA "0a1b2c3d" = (d, 0) ∧
      process_refund (applyDelta c2StateA d) "ffff9999" = (d, 0) ∧
      d.refund_transaction_id = none ∧
      applyDelta (applyDelta c2StateA d) d =
        { applyDelta c2StateA d with
            messages := (applyDelta c2StateA d).messages ++ d.messages }) :=
  ⟨rfl, by decide,
    c2_amended_idempotent_up_to_duplicate_log_entry c2StateA "refund_12345_0a1b2c3d"
      "0a1b2c3d" "ffff9999" rfl (by decide)⟩

/-- After appending a user message, the classify prelude reads exactly its text. -/
theorem lastUserText_append_user (ms : List Msg) (t : String) :
    lastUserText (ms ++ [⟨Role.human, t⟩]) = t := by
  simp [lastUserText, List.reverse_append, List.find?]

/-- C7: any input text containing an anger-signal keyword makes classify_intent set
needs_human, makes the router select the human-handoff step, and the ensuing run
terminates with no refund-tool call, whatever the rest of the state and hence whatever
the classified intent or existing transaction id. -/
theorem c7_angry_input_always_routes_to_handoff
    (s : CustomerServiceState) (text u : String) (h : is_angry text = true) :
    (classify_intent (inputState s text)).needs_human = some true ∧
    route_after_classify
      (applyDelta (inputState s text) (classify_intent (inputState s text))) =
      "human_handoff" ∧
    ∃ sf, invokeInput s text u = Outcome.terminated sf 0 := by
  have hl : lastUserText (inputState s text).messages = text := by
    simpa [inputState] using lastUserText_append_user s.messages text
  have hn : (classify_intent (inputState s text)).needs_human = some true := by
    simp [classify_intent, hl, h]
  have hroute : route_after_classify
      (applyDelta (inputState s text) (classify_intent (inputState s text))) =
      "human_handoff" := by
    simp [route_after_classify, applyDelta, hn]
  refine ⟨hn, hroute,
    applyDelta (applyDelta (inputState s text) (classify_intent (inputState s text)))
      (human_handoff
        (applyDelta (inputState s text) (classify_intent (inputState s text)))), ?_⟩
  simp only [invokeInput, runFromClassify, hroute]
  simp [classifyEdges]

/-- Concrete instantiation of C7 on an angry input over a fresh state. -/
theorem c7_angry_input_always_routes_to_handoff_witness :
    is_angry "这是垃圾" = true ∧
    ((classify_intent (inputState {} "这是垃圾")).needs_human = some true ∧
     route_after_classify
       (applyDelta (inputState {} "这是垃圾") (classify_intent (inputState {} "这是垃圾"))) =
       "human_handoff" ∧
     ∃ sf, invokeInput {} "这是垃圾" "0a1b2c3d" = Outcome.terminated sf 0) :=
  ⟨rfl, c7_angry_input_always_routes_to_handoff {} "这是垃圾" "0a1b2c3d" rfl⟩

/-- C8: resume is deterministic. A resumed confirmation step never suspends again, and
two executions of the suspended step from the same checkpoint with the same resume
value produce the same delta and the same next-step routing decision. -/
theorem c8_resume_determinism (s : CustomerServiceState) (v : ResumeValue) :
    (∃ d, confirm_refund s (some v) = StepResult.delta d) ∧
    ∀ d1 d2, confirm_refund s (some v) = StepResult.delta d1 →
      confirm_refund s (some v) = StepResult.delta d2 →
      d1 = d2 ∧
      route_after_confirm (applyDelta s d1) = route_after_confirm (applyDelta s d2) := by
  constructor
  · unfold confirm_refund
    split
    · exact ⟨_, rfl⟩
    · rcases hv : !v.approvedFlag with _ | _ <;> simp [hv]
  · intro d1 d2 h1 h2
    rw [h1] at h2
    cases h2
    exact ⟨rfl, rfl⟩

/-- Concrete instantiation of C8: resuming the Scenario 1 checkpoint twice with an
approving dict resume value yields the same delta and routing decision both times. -/
theorem c8_resume_determinism_witness :
    (confirm_refund scenario1Checkpoint (some (ResumeValue.pyDict true)) =
       StepResult.delta
         { refund_decision := some Decision.approved
           messages := [⟨Role.ai, "收到，我将为你发起退款（模拟）。"⟩] } ∧
     confirm_refund scenario1Checkpoint (some (ResumeValue.pyDict true)) =
       StepResult.delta
         { refund_decision := some Decision.approved
           messages := [⟨Role.ai, "收到，我将为你发起退款（模拟）。"⟩] }) ∧
    ({ refund_decision := some Decision.approved
       messages := [⟨Role.ai, "收到，我将为你发起退款（模拟）。"⟩] } : StepDelta) =
      { refund_decision := some Decision.approved
        messages := [⟨Role.ai, "收到，我将为你发起退款（模拟）。"⟩] } ∧
    route_after_confirm (applyDelta scenario1Checkpoint
      { refund_decision := some Decision.approved
        messages := [⟨Role.ai, "收到，我将为你发起退款（模拟）。"⟩] }) =
    route_after_confirm (applyDelta scenario1Checkpoint
      { refund_decision := some Decision.approved
        messages := [⟨Role.ai, "收到，我将为你发起退款（模拟）。"⟩] }) :=
  ⟨⟨rfl, rfl⟩,
    (c8_resume_determinism scenario1Checkpoint (ResumeValue.pyDict true)).2 _ _ rfl rfl⟩

/-- C10: classify_intent writes refund_decision as pending exactly when the newly
classified intent is refund and no transaction id is present; in every other case the
delta carries the pre-existing decision unchanged. -/
theorem c10_decision_reset_iff_fresh_refund_intent (s : CustomerServiceState) :
    (classify_intent s).refund_decision =
      some (if (classify_intent s).intent = some Intent.refund ∧
               s.refund_transaction_id = none
            then Decision.pending else s.refund_decision) := by
  simp only [classify_intent, Option.some.injEq]

end CustomerService

namespace SimpleAgent

/-- Every executed tool call contributes its result message to the appended batch. -/
theorem toolResultMsg_mem_results (tcs : List ToolCall) (tc : ToolCall)
    (htc : tc ∈ tcs) (hav : availableFunction tc.name = true) :
    toolResultMsg tc ∈ toolResultMsgs tcs := by
  induction tcs with
  | nil => cases htc
  | cons hd tl ih =>
    rcases List.mem_cons.mp htc with h1 | h1
    · subst h1
      simp [toolResultMsgs, hav]
    · unfold toolResultMsgs
      split <;> simp [ih h1]

/-- C9: whenever a completion response carries tool calls, the loop appends, for every
executed tool, a tool-role result message carrying the correlation id of the call that
produced it, and the next completion call receives the log with all of these already
appended. -/
theorem c9_tool_results_correlated_before_next_call
    (msgs : List SMsg) (rm : ApiMessage) (rest : List ApiMessage)
    (h : rm.tool_calls ≠ []) :
    runLoop msgs (rm :: rest) = runLoop (stepRound msgs rm) rest ∧
    ∀ tc ∈ rm.tool_calls, availableFunction tc.name = true →
      toolResultMsg tc ∈ stepRound msgs rm ∧
      (toolResultMsg tc).role = "tool" ∧
      (toolResultMsg tc).tool_call_id = some tc.id := by
  constructor
  · have hne : rm.tool_calls.isEmpty = false := by
      cases hcase : rm.tool_calls with
      | nil => exact absurd hcase h
      | cons a as => rfl
    cases rest with
    | nil => simp [runLoop, hne]
    | cons r rs => simp [runLoop, hne]
  · intro tc htc hav
    refine ⟨?_, rfl, rfl⟩
    unfold stepRound
    exact List.mem_append.mpr (Or.inr (toolResultMsg_mem_results _ tc htc hav))

/-- Concrete instantiation of C9 on the test query of the source and one multiply call. -/
theorem c9_tool_results_correlated_before_next_call_witness :
    ({ content := "", tool_calls := [⟨"call_1", "multiply", 3829, 812⟩] } :
        ApiMessage).tool_calls ≠ [] ∧
    ((⟨"call_1", "multiply", 3829, 812⟩ : ToolCall) ∈
       ({ content := "", tool_calls := [⟨"call_1", "multiply", 3829, 812⟩] } :
          ApiMessage).tool_calls ∧
     availableFunction "multiply" = true) ∧
    runLoop (initMessages "3829 乘以 812 是多少？")
        [{ content := "", tool_calls := [⟨"call_1", "multiply", 3829, 812⟩] }] =
      runLoop (stepRound (initMessages "3829 乘以 812 是多少？")
        { content := "", tool_calls := [⟨"call_1", "multiply", 3829, 812⟩] }) [] ∧
    toolResultMsg ⟨"call_1", "multiply", 3829, 812⟩ ∈
      stepRound (initMessages "3829 乘以 812 是多少？")
        { content := "", tool_calls := [⟨"call_1", "multiply", 3829, 812⟩] } ∧
    (toolResultMsg ⟨"call_1", "multiply", 3829, 812⟩).role = "tool" ∧
    (toolResultMsg ⟨"call_1", "multiply", 3829, 812⟩).tool_call_id = some "call_1" := by
  refine ⟨by decide, ⟨by simp, rfl⟩, ?_, ?_, rfl, rfl⟩
  · exact (c9_tool_results_correlated_before_next_call
      (initMessages "3829 乘以 812 是多少？")
      { content := "", tool_calls := [⟨"call_1", "multiply", 3829, 812⟩] } []
      (by decide)).1
  · exact ((c9_tool_results_correlated_before_next_call
      (initMessages "3829 乘以 812 是多少？")
      { content := "", tool_calls := [⟨"call_1", "multiply", 3829, 812⟩] } []
      (by decide)).2 ⟨"call_1", "multiply", 3829, 812⟩ (by simp) rfl).1

end SimpleAgent
